import Mathlib

/-!
Shallow embedding of the two Streamlit applications in this repository
(the Apps Portal in `StreamlitPortal.py` / `portal_config.py` /
`simple_image_manager.py`, and the data-quality tool in
`db-snowdq/streamlit_app.py`), together with theorems settling the
specification claims about them.

Warehouse calls are modelled by passing an explicit query-executor
function (`String → Except String α`): a successful warehouse call is an
`Except.ok` result, a raised exception is `Except.error`.  Python string
formatting is translated to Lean string concatenation, pandas data frames
to a `PortalDF` structure (column names plus rows), and Python dicts that
the code only iterates over to association lists.
-/

/-- Python exception values that the embedded code distinguishes. -/
inductive PyExc where
  | attributeError
  | valueError
  | timeoutExc
  | otherExc (msg : String)
deriving DecidableEq, Repr

/-- Outcome of running a Python callable: a normal return value or a
raised exception. -/
inductive PyOutcome (β : Type) where
  | ok (value : β)
  | exc (e : PyExc)
deriving DecidableEq, Repr

/-- A pandas data frame, reduced to what the portal code inspects:
its column names and its rows of cells. -/
structure PortalDF where
  columns : List String
  rows : List (List String)
deriving DecidableEq, Repr

/-- `pd.DataFrame()`: the empty frame returned by the error branches. -/
def PortalDF.emptyDF : PortalDF := { columns := [], rows := [] }

/-- `df.empty` in pandas: no rows. -/
def PortalDF.isEmptyDF (df : PortalDF) : Bool := df.rows.isEmpty

/-! ## `StreamlitPortal.get_accessible_apps` (StreamlitPortal.py 259-302) -/

/-- The access-grant join query built by `get_accessible_apps`, with the
caller's username and roles interpolated exactly as the Python f-string
does (`user_roles_str` is the quoted, comma-joined role list). -/
def accessibleAppsQuery (username : String) (roles : List String) : String :=
  let user_roles_str := "'" ++ String.intercalate "','" roles ++ "'"
  "\n                SELECT DISTINCT pa.app_id, pa.app_name, pa.app_title, pa.description, pa.image_path, pa.url_id, pa.database_name, pa.schema_name\n                FROM portal_apps pa\n                INNER JOIN app_access aa ON pa.app_id = aa.app_id\n                WHERE pa.is_active = TRUE\n                AND (\n                    (aa.access_type = 'USER' AND UPPER(aa.access_value) = UPPER('"
    ++ username
    ++ "'))\n                    OR (aa.access_type = 'ROLE' AND UPPER(aa.access_value) IN ("
    ++ user_roles_str.toUpper
    ++ "))\n                )\n                ORDER BY pa.app_title\n            "

/-- `get_accessible_apps`: run the join query; on success lower-case the
column names of a non-empty result; on any exception display an error and
return `pd.DataFrame()`. -/
def get_accessible_apps (execQuery : String → Except String PortalDF)
    (username : String) (roles : List String) : PortalDF :=
  match execQuery (accessibleAppsQuery username roles) with
  | Except.ok df =>
      if df.isEmptyDF then df
      else { df with columns := df.columns.map String.toLower }
  | Except.error _ => PortalDF.emptyDF

/-! ## `portal_config.get_portal_apps` (portal_config.py 126-165) -/

/-- The fixed query text issued by `get_portal_apps`. -/
def portalAppsQueryText : String := "SELECT * FROM portal_apps ORDER BY app_title"

/-- The per-column rename applied by `get_portal_apps`: known column
names are mapped to their lower-case form, any other column is kept. -/
def portalColName (c : String) : String :=
  if c.toUpper = "APP_ID" then "app_id"
  else if c.toUpper = "APP_NAME" then "app_name"
  else if c.toUpper = "APP_TITLE" then "app_title"
  else if c.toUpper = "DESCRIPTION" then "description"
  else if c.toUpper = "IS_ACTIVE" then "is_active"
  else if c.toUpper = "CREATED_AT" then "created_at"
  else if c.toUpper = "UPDATED_AT" then "updated_at"
  else c

/-- `get_portal_apps`: run the query; on success normalize column-name
casing of a non-empty result; on any exception display an error and
return `pd.DataFrame()`. -/
def get_portal_apps (execQuery : String → Except String PortalDF) : PortalDF :=
  match execQuery portalAppsQueryText with
  | Except.ok df =>
      if df.isEmptyDF then df
      else { df with columns := df.columns.map portalColName }
  | Except.error _ => PortalDF.emptyDF

/-! ## `streamlit_app.get_databases` (db-snowdq/streamlit_app.py 333-356) -/

/-- The fixed query text issued by `get_databases`. -/
def databasesQueryText : String :=
  "\n        SELECT DATABASE_NAME \n        FROM INFORMATION_SCHEMA.DATABASES \n        ORDER BY DATABASE_NAME\n        "

/-- `get_databases`: run the query; on success filter out the system
databases; on any exception display an error and return `[]`. -/
def get_databases (execQuery : String → Except String (List String)) : List String :=
  match execQuery databasesQueryText with
  | Except.ok databases =>
      databases.filter (fun db => !(["SNOWFLAKE", "INFORMATION_SCHEMA"].contains db))
  | Except.error _ => []

/-- C1: whenever the underlying warehouse call raises, each data-access
helper catches the exception at the call site and returns its documented
empty default (`pd.DataFrame()` for `get_accessible_apps` and
`get_portal_apps`, `[]` for `get_databases`) instead of propagating. -/
theorem warehouse_failure_yields_empty_defaults
    (execA execP : String → Except String PortalDF)
    (execD : String → Except String (List String))
    (username : String) (roles : List String) (eA eP eD : String)
    (hA : execA (accessibleAppsQuery username roles) = Except.error eA)
    (hP : execP portalAppsQueryText = Except.error eP)
    (hD : execD databasesQueryText = Except.error eD) :
    get_accessible_apps execA username roles = PortalDF.emptyDF ∧
    get_portal_apps execP = PortalDF.emptyDF ∧
    get_databases execD = [] := by
  unfold get_accessible_apps get_portal_apps get_databases
  rw [hA, hP, hD]
  exact ⟨rfl, rfl, rfl⟩

/-- Concrete instance of `warehouse_failure_yields_empty_defaults`: a
query executor that always raises makes all three helpers return their
empty defaults. -/
theorem warehouse_failure_yields_empty_defaults_witness :
    get_accessible_apps (fun _ => Except.error "connection lost") "ALICE" ["PUBLIC"]
      = PortalDF.emptyDF ∧
    get_portal_apps (fun _ => Except.error "connection lost") = PortalDF.emptyDF ∧
    get_databases (fun _ => Except.error "connection lost") = [] :=
  warehouse_failure_yields_empty_defaults
    (fun _ => Except.error "connection lost")
    (fun _ => Except.error "connection lost")
    (fun _ => Except.error "connection lost")
    "ALICE" ["PUBLIC"] "connection lost" "connection lost" "connection lost"
    rfl rfl rfl

/-! ## The `timeout` decorator (db-snowdq/streamlit_app.py 238-273)

`timeout(seconds)` wraps a function: it installs a `SIGALRM` handler and
an alarm, runs the function, and resets the alarm.  If installing the
handler raises `AttributeError` or `ValueError` (no Unix alarm signal on
this platform), the `except (AttributeError, ValueError)` branch just
runs the function without a timeout.  If the alarm fires during the call,
the handler raises the module's custom `TimeoutError`, which the
`except TimeoutError` branch re-raises after showing a warning.

The platform is modelled by `sigalrmAvailable` (whether
`signal.signal(signal.SIGALRM, ...)` succeeds) and `timerFires` (whether
the wrapped call exceeds the alarm when one is armed); the wrapped
function is a pure map into `PyOutcome`. -/

/-- The wrapper produced by the `timeout` decorator. -/
def timeoutWrapper {α β : Type} (sigalrmAvailable : Bool) (timerFires : Bool)
    (f : α → PyOutcome β) (a : α) : PyOutcome β :=
  if sigalrmAvailable then
    if timerFires then
      PyOutcome.exc PyExc.timeoutExc
    else
      match f a with
      | PyOutcome.ok v => PyOutcome.ok v
      | PyOutcome.exc PyExc.attributeError => f a
      | PyOutcome.exc PyExc.valueError => f a
      | PyOutcome.exc e => PyOutcome.exc e
  else
    f a

/-- C5: on a platform without the Unix alarm signal (installing the
`SIGALRM` handler raises `AttributeError` or `ValueError`, i.e.
`sigalrmAvailable = false`), the wrapped function returns exactly what
the unwrapped function returns for every argument, and the wrapper never
introduces a `TimeoutError` that the function itself did not raise. -/
theorem timeout_noop_without_sigalrm {α β : Type}
    (timerFires : Bool) (f : α → PyOutcome β) (a : α) :
    timeoutWrapper false timerFires f a = f a ∧
    (f a ≠ PyOutcome.exc PyExc.timeoutExc →
      timeoutWrapper false timerFires f a ≠ PyOutcome.exc PyExc.timeoutExc) := by
  refine ⟨rfl, ?_⟩
  intro h
  simpa [timeoutWrapper] using h

/-- Concrete instance of `timeout_noop_without_sigalrm` at the successor
function on naturals. -/
theorem timeout_noop_without_sigalrm_witness :
    timeoutWrapper false true (fun n : Nat => PyOutcome.ok (n + 1)) 3
        = (fun n : Nat => PyOutcome.ok (n + 1)) 3 ∧
    ((fun n : Nat => PyOutcome.ok (n + 1)) 3 ≠ PyOutcome.exc PyExc.timeoutExc →
      timeoutWrapper false true (fun n : Nat => PyOutcome.ok (n + 1)) 3
        ≠ PyOutcome.exc PyExc.timeoutExc) :=
  timeout_noop_without_sigalrm true (fun n : Nat => PyOutcome.ok (n + 1)) 3

/-! ## `quote_identifier` (db-snowdq/streamlit_app.py 689-704)

Python string tests are paraphrased over the character list of the
string: `identifier.startswith('"')` is "the first character is a double
quote", `identifier.endswith('"')` is "the last character is a double
quote" (for the empty string both are false, and the function returns
the empty string before reaching them, as the Python code does). -/

/-- The special characters listed in `quote_identifier`. -/
def dqSpecialChars : List Char :=
  ['-', '.', '+', '/', '*', '(', ')', '[', ']', '\x7b', '\x7d']

/-- The reserved words listed in `quote_identifier`. -/
def dqReservedWords : List String :=
  ["TABLE", "COLUMN", "VIEW", "DATABASE", "SCHEMA", "SELECT", "FROM", "WHERE"]

/-- The quoting condition of `quote_identifier`: the identifier contains
a space, contains one of the listed special characters, or upper-cases to
a listed reserved word. -/
def needsQuoting (identifier : String) : Bool :=
  identifier.toList.contains ' ' ||
  dqSpecialChars.any (fun c => identifier.toList.contains c) ||
  dqReservedWords.contains (String.mk (identifier.toList.map Char.toUpper))

/-- `quote_identifier`: return `""` unchanged, return an
already-double-quoted identifier unchanged, wrap an identifier meeting
the quoting condition in double quotes, and return anything else
unchanged. -/
def quote_identifier (identifier : String) : String :=
  if identifier = "" then identifier
  else if identifier.toList.head? = some '"' ∧ identifier.toList.getLast? = some '"' then
    identifier
  else if needsQuoting identifier then "\"" ++ identifier ++ "\""
  else identifier

/-- The character list of a wrapped identifier: a double quote, the
original characters, a double quote. -/
theorem quoted_toList (s : String) :
    ("\"" ++ s ++ "\"").toList = '"' :: (s.toList ++ ['"']) := by
  simp [String.toList, String.data_append]

theorem quoted_ne_empty (s : String) : ("\"" ++ s ++ "\"") ≠ "" := by
  intro h
  have hd := congrArg String.toList h
  rw [quoted_toList] at hd
  simp [String.toList] at hd

theorem quoted_head (s : String) :
    ("\"" ++ s ++ "\"").toList.head? = some '"' := by
  rw [quoted_toList]; rfl

theorem quoted_getLast (s : String) :
    ("\"" ++ s ++ "\"").toList.getLast? = some '"' := by
  rw [quoted_toList]
  rw [show '"' :: (s.toList ++ ['"']) = ('"' :: s.toList) ++ ['"'] from rfl]
  exact List.getLast?_concat _

/-- A string that starts and ends with a double quote is returned
unchanged by `quote_identifier`. -/
theorem quote_identifier_of_wrapped (t : String) (hne : t ≠ "")
    (hh : t.toList.head? = some '"') (hl : t.toList.getLast? = some '"') :
    quote_identifier t = t := by
  unfold quote_identifier
  rw [if_neg hne, if_pos ⟨hh, hl⟩]

/-- Idempotence of `quote_identifier`, by cases on its branches. -/
theorem quote_identifier_idem_eq (s : String) :
    quote_identifier (quote_identifier s) = quote_identifier s := by
  by_cases h1 : s = ""
  · subst h1
    simp [quote_identifier]
  · by_cases h2 : s.toList.head? = some '"' ∧ s.toList.getLast? = some '"'
    · have hq : quote_identifier s = s := by
        unfold quote_identifier
        rw [if_neg h1, if_pos h2]
      rw [hq, hq]
    · by_cases h3 : needsQuoting s = true
      · have hq : quote_identifier s = "\"" ++ s ++ "\"" := by
          unfold quote_identifier
          rw [if_neg h1, if_neg h2, if_pos h3]
        rw [hq]
        exact quote_identifier_of_wrapped _ (quoted_ne_empty s) (quoted_head s)
          (quoted_getLast s)
      · have hq : quote_identifier s = s := by
          unfold quote_identifier
          rw [if_neg h1, if_neg h2, if_neg h3]
        rw [hq, hq]

/-- C9: `quote_identifier` is idempotent — applying it twice gives the
same string as applying it once.  In particular an identifier already
wrapped in double quotes, and an identifier that meets none of the
quoting conditions (no space, no listed special character, not a listed
reserved word), are both returned unchanged. -/
theorem quote_identifier_idem (s : String) :
    quote_identifier (quote_identifier s) = quote_identifier s ∧
    (s.toList.head? = some '"' ∧ s.toList.getLast? = some '"' →
      quote_identifier s = s) ∧
    (needsQuoting s = false → quote_identifier s = s) := by
  refine ⟨?_, ?_, ?_⟩
  · exact quote_identifier_idem_eq s
  · intro h
    by_cases h1 : s = ""
    · rw [h1]; rfl
    · exact quote_identifier_of_wrapped s h1 h.1 h.2
  · intro h
    by_cases h1 : s = ""
    · rw [h1]; rfl
    · by_cases h2 : s.toList.head? = some '"' ∧ s.toList.getLast? = some '"'
      · unfold quote_identifier
        rw [if_neg h1, if_pos h2]
      · unfold quote_identifier
        rw [if_neg h1, if_neg h2, if_neg (by rw [h]; exact Bool.false_ne_true)]

/-- Concrete instance of `quote_identifier_idem` at an identifier
already wrapped in double quotes (which also meets no quoting
condition). -/
theorem quote_identifier_idem_witness :
    quote_identifier (quote_identifier "\"x\"") = quote_identifier "\"x\"" ∧
    (("\"x\"" : String).toList.head? = some '"' ∧
        ("\"x\"" : String).toList.getLast? = some '"' →
      quote_identifier "\"x\"" = "\"x\"") ∧
    (needsQuoting "\"x\"" = false → quote_identifier "\"x\"" = "\"x\"") :=
  quote_identifier_idem "\"x\""

/-! ## `load_image_from_database` (StreamlitPortal.py 163-187, identical
logic in simple_image_manager.py 274-298)

The decoding pipeline (`base64.b64decode` followed by `Image.open`) is
modelled by an abstract function `decodeImage` returning a `PyOutcome`;
the image type itself is a type parameter.  The column value is an
`Option String` (`none` for a SQL NULL).  Python truthiness of the
argument makes both `None` and the empty string take the early
`return None`.  `image_path.replace('base64:', '')` is Python's
replace-all, matching `String.replace`. -/

/-- `load_image_from_database`: `None`/empty paths yield `None`, a path
with the `base64:` marker is stripped of the marker and decoded (a
decoding exception is caught and yields `None`), and any other path
yields `None`.  Both enclosing `try` blocks catch every exception, so the
function always returns (an `Option`) to its caller. -/
def load_image_from_database {Img : Type}
    (decodeImage : String → PyOutcome Img) (image_path : Option String) : Option Img :=
  match image_path with
  | none => none
  | some s =>
    if s = "" then none
    else if s.startsWith "base64:" then
      match decodeImage (s.replace "base64:" "") with
      | PyOutcome.ok im => some im
      | PyOutcome.exc _ => none
    else none

/-- C10: `load_image_from_database` returns an image only for a path
carrying the `base64:` marker whose stripped remainder decodes
successfully; for `None`, the empty string, any path without the marker,
or a failing decode it returns `None` — and, its result being an
`Option`, it never propagates an exception to the caller. -/
theorem load_image_base64_only {Img : Type}
    (decodeImage : String → PyOutcome Img) (image_path : Option String) :
    (∀ im : Img, load_image_from_database decodeImage image_path = some im →
      ∃ s, image_path = some s ∧ s.startsWith "base64:" = true ∧
        decodeImage (s.replace "base64:" "") = PyOutcome.ok im) ∧
    (image_path = none → load_image_from_database decodeImage image_path = none) ∧
    (image_path = some "" → load_image_from_database decodeImage image_path = none) ∧
    (∀ s, image_path = some s → s.startsWith "base64:" = false →
      load_image_from_database decodeImage image_path = none) ∧
    (∀ s e, image_path = some s →
      decodeImage (s.replace "base64:" "") = PyOutcome.exc e →
      load_image_from_database decodeImage image_path = none) := by
  refine ⟨?_, ?_, ?_, ?_, ?_⟩
  · intro im him
    cases image_path with
    | none => simp [load_image_from_database] at him
    | some s =>
      by_cases hs : s = ""
      · simp [load_image_from_database, hs] at him
      · by_cases hb : s.startsWith "base64:" = true
        · cases hd : decodeImage (s.replace "base64:" "") with
          | ok v =>
            have hv : some v = some im := by
              simpa [load_image_from_database, hs, hb, hd] using him
            refine ⟨s, rfl, hb, ?_⟩
            rw [hd]
            cases hv
            rfl
          | exc e => simp [load_image_from_database, hs, hb, hd] at him
        · simp [load_image_from_database, hs, hb] at him
  · intro h; rw [h]; rfl
  · intro h; rw [h]; simp [load_image_from_database]
  · intro s h hb
    rw [h]
    simp [load_image_from_database, hb]
  · intro s e h hd
    rw [h]
    by_cases hs : s = ""
    · simp [load_image_from_database, hs]
    · by_cases hb : s.startsWith "base64:" = true
      · simp [load_image_from_database, hs, hb, hd]
      · simp [load_image_from_database, hs, hb]

/-- Concrete instance of `load_image_base64_only` at a decoder that
succeeds on the stripped payload, applied to a marker-carrying path. -/
theorem load_image_base64_only_witness :
    (∀ im : Nat,
      load_image_from_database (fun p => PyOutcome.ok p.length) (some "base64:abcd")
        = some im →
      ∃ s, (some "base64:abcd" : Option String) = some s ∧
        s.startsWith "base64:" = true ∧
        (fun p : String => PyOutcome.ok p.length) (s.replace "base64:" "")
          = PyOutcome.ok im) ∧
    ((some "base64:abcd" : Option String) = none →
      load_image_from_database (fun p : String => PyOutcome.ok p.length)
        (some "base64:abcd") = none) ∧
    ((some "base64:abcd" : Option String) = some "" →
      load_image_from_database (fun p : String => PyOutcome.ok p.length)
        (some "base64:abcd") = none) ∧
    (∀ s, (some "base64:abcd" : Option String) = some s →
      s.startsWith "base64:" = false →
      load_image_from_database (fun p : String => PyOutcome.ok p.length)
        (some "base64:abcd") = none) ∧
    (∀ s e, (some "base64:abcd" : Option String) = some s →
      (fun p : String => PyOutcome.ok p.length) (s.replace "base64:" "")
        = PyOutcome.exc e →
      load_image_from_database (fun p : String => PyOutcome.ok p.length)
        (some "base64:abcd") = none) :=
  load_image_base64_only (fun p => PyOutcome.ok p.length) (some "base64:abcd")

/-! ## `display_app_grid` (StreamlitPortal.py 374-487)

The grid is modelled as the sequence of externally visible actions the
function performs: showing the empty-state message, the warehouse query
for organization/account (`get_snowflake_app_info`), loading an image
from the database, and rendering a card and its launch button.  The
4-column layout chunking only arranges the same cards and is not
modelled.  The image-processing pipeline (thumbnail, paste, PNG
re-encode) is the abstract `renderImg`; `load_image_from_database` is the
function defined above. -/

/-- One row of the accessible-apps frame, reduced to the fields
`display_app_grid` reads. -/
structure GridAppRow where
  app_id : String
  app_name : String
  app_title : String
  image_path : Option String
  database_name : String
  schema_name : String
deriving DecidableEq, Repr

/-- An externally visible action of `display_app_grid`. -/
inductive RenderAct where
  | infoMsg (text : String)
  | queryAppInfo
  | loadImage (path : String)
  | card (image_src : String) (title : String)
  | launchBtn (title : String)
deriving DecidableEq, Repr

/-- The `image_src` chosen for one card: the `No+Image` placeholder for a
falsy (`NULL`/empty) `image_path`; otherwise the loaded image re-encoded
as a data URI, the `Custom+Image` placeholder when the load returns
`None`, or the `Image+Error` placeholder when re-encoding raises. -/
def cardImageSrc {Img : Type} (decodeImage : String → PyOutcome Img)
    (renderImg : Img → PyOutcome String) (image_path : Option String) : String :=
  match image_path with
  | none => "https://via.placeholder.com/200x200?text=No+Image"
  | some s =>
    if s = "" then "https://via.placeholder.com/200x200?text=No+Image"
    else
      match load_image_from_database decodeImage (some s) with
      | some im =>
        match renderImg im with
        | PyOutcome.ok img_str => "data:image/png;base64," ++ img_str
        | PyOutcome.exc _ => "https://via.placeholder.com/200x200?text=Image+Error"
      | none => "https://via.placeholder.com/200x200?text=Custom+Image"

/-- The actions emitted for one app card: the database image load (only
attempted for a truthy `image_path`), the card itself, and its launch
button. -/
def appCardActs {Img : Type} (decodeImage : String → PyOutcome Img)
    (renderImg : Img → PyOutcome String) (app : GridAppRow) : List RenderAct :=
  (match app.image_path with
   | none => []
   | some s => if s = "" then [] else [RenderAct.loadImage s]) ++
  [RenderAct.card (cardImageSrc decodeImage renderImg app.image_path) app.app_title,
   RenderAct.launchBtn app.app_title]

/-- `display_app_grid`: an empty frame shows only the empty-state
message and returns; otherwise the organization/account query runs once
and each row yields its card actions. -/
def display_app_grid {Img : Type} (decodeImage : String → PyOutcome Img)
    (renderImg : Img → PyOutcome String) (apps : List GridAppRow) : List RenderAct :=
  if apps.isEmpty then
    [RenderAct.infoMsg
      "No applications are currently available to you. Please contact your administrator."]
  else
    RenderAct.queryAppInfo :: (apps.map (appCardActs decodeImage renderImg)).flatten

/-- C7: a row whose `image_path` is `NULL` or empty produces exactly a
card bearing the fixed `No+Image` placeholder URL and its launch button —
in particular no `loadImage` action, so no image load from the database
is attempted for it. -/
theorem null_image_path_renders_placeholder {Img : Type}
    (decodeImage : String → PyOutcome Img) (renderImg : Img → PyOutcome String)
    (app : GridAppRow) (h : app.image_path = none ∨ app.image_path = some "") :
    appCardActs decodeImage renderImg app =
      [RenderAct.card "https://via.placeholder.com/200x200?text=No+Image" app.app_title,
       RenderAct.launchBtn app.app_title] := by
  cases h with
  | inl h => simp [appCardActs, cardImageSrc, h]
  | inr h => simp [appCardActs, cardImageSrc, h]

/-- Concrete instance of `null_image_path_renders_placeholder` at a row
with a `NULL` image path. -/
theorem null_image_path_renders_placeholder_witness :
    appCardActs (fun p : String => PyOutcome.ok p.length)
      (fun n : Nat => PyOutcome.ok (toString n))
      { app_id := "A1", app_name := "APP1", app_title := "App One",
        image_path := none, database_name := "DB", schema_name := "SC" } =
    [RenderAct.card "https://via.placeholder.com/200x200?text=No+Image" "App One",
     RenderAct.launchBtn "App One"] :=
  null_image_path_renders_placeholder (fun p : String => PyOutcome.ok p.length)
    (fun n : Nat => PyOutcome.ok (toString n))
    { app_id := "A1", app_name := "APP1", app_title := "App One",
      image_path := none, database_name := "DB", schema_name := "SC" }
    (Or.inl rfl)

/-- C8: on an empty accessible-apps frame, `display_app_grid` shows
exactly the empty-state informational message: it renders no card, no
launch button, attempts no image load, and does not run the
organization/account query. -/
theorem empty_apps_grid_shows_empty_state {Img : Type}
    (decodeImage : String → PyOutcome Img) (renderImg : Img → PyOutcome String) :
    display_app_grid decodeImage renderImg [] =
      [RenderAct.infoMsg
        "No applications are currently available to you. Please contact your administrator."] ∧
    ((display_app_grid decodeImage renderImg []).all (fun act =>
      match act with
      | RenderAct.infoMsg _ => true
      | _ => false)) = true := by
  exact ⟨rfl, rfl⟩

/-! ## Portal database schema and admin mutations

`initialize_database_schema` (StreamlitPortal.py 96-149) issues
`CREATE TABLE IF NOT EXISTS` for `portal_apps` and `app_access`; the
constraints written in those statements are transcribed below.
`add_access_permission` (portal_config.py 550-573) and
`save_application_changes` (portal_config.py 320-398) are modelled as
transformers of an explicit table state, with each `INSERT`/`DELETE`/
`UPDATE` applied as the warehouse would apply the generated SQL. -/

/-- A named constraint set of a `CREATE TABLE` statement. -/
structure TableSchema where
  tableName : String
  columnNames : List String
  primaryKey : List String
  uniqueConstraints : List (List String)
  foreignKeys : List (String × String × String)
deriving DecidableEq, Repr

/-- The `app_access` schema from `initialize_database_schema`: an
identity primary key, three `NOT NULL` payload columns, a timestamp
default, one foreign key — and no `UNIQUE` constraint. -/
def app_access_schema : TableSchema :=
  { tableName := "app_access"
    columnNames := ["access_id", "app_id", "access_type", "access_value", "created_at"]
    primaryKey := ["access_id"]
    uniqueConstraints := []
    foreignKeys := [("app_id", "portal_apps", "app_id")] }

/-- A row of `app_access`. -/
structure AccessRow where
  access_id : Nat
  app_id : String
  access_type : String
  access_value : String
deriving DecidableEq, Repr

/-- A row of `portal_apps`, reduced to the columns the admin UI writes. -/
structure PortalAppRow where
  app_id : String
  app_name : String
  app_title : String
  description : String
  url_id : String
  database_name : String
  schema_name : String
  is_active : Bool
deriving DecidableEq, Repr

/-- The two portal tables plus the next value of the `access_id`
identity column. -/
structure PortalState where
  portal_apps : List PortalAppRow
  app_access : List AccessRow
  nextAccessId : Nat
deriving DecidableEq, Repr

/-- The `INSERT` text built by `add_access_permission` (Snowpark
branch). -/
def add_access_permission_sql (app_id access_type access_value : String) : String :=
  "\n                INSERT INTO app_access (app_id, access_type, access_value)\n                VALUES ('"
    ++ app_id ++ "', '" ++ access_type ++ "', '" ++ access_value
    ++ "')\n            "

/-- The statements `add_access_permission` issues: one unconditional
`INSERT`, in every state — the function performs no existence check. -/
def add_access_permission_stmts (_st : PortalState)
    (app_id access_type access_value : String) : List String :=
  [add_access_permission_sql app_id access_type access_value]

/-- Effect of `add_access_permission` on the table state: the identity
column assigns a fresh `access_id` and the row is appended. -/
def add_access_permission (st : PortalState)
    (app_id access_type access_value : String) : PortalState :=
  { st with
    app_access := st.app_access ++
      [{ access_id := st.nextAccessId, app_id := app_id,
         access_type := access_type, access_value := access_value }]
    nextAccessId := st.nextAccessId + 1 }

/-- Number of `app_access` rows carrying a given grant triple. -/
def grantCount (st : PortalState) (app_id access_type access_value : String) : Nat :=
  st.app_access.countP (fun r =>
    r.app_id == app_id && r.access_type == access_type && r.access_value == access_value)

/-- C6: the `CREATE TABLE` for `app_access` declares no `UNIQUE`
constraint at all (in particular none on
`(app_id, access_type, access_value)`), `add_access_permission` issues a
single unconditional `INSERT` in every state, and the admin action
sequence that adds the same grant twice from the empty state leaves two
identical grant rows in the table. -/
theorem app_access_allows_duplicate_grants :
    app_access_schema.uniqueConstraints = [] ∧
    (∀ st app_id access_type access_value,
      add_access_permission_stmts st app_id access_type access_value =
        [add_access_permission_sql app_id access_type access_value]) ∧
    grantCount
      (add_access_permission
        (add_access_permission
          { portal_apps := [], app_access := [], nextAccessId := 1 }
          "APP1" "USER" "ALICE")
        "APP1" "USER" "ALICE")
      "APP1" "USER" "ALICE" = 2 := by
  refine ⟨rfl, fun _ _ _ _ => rfl, ?_⟩
  decide

/-! ## `save_application_changes` (portal_config.py 320-398)

The admin editor hands the function the original and the edited frame;
it walks the edited rows by index and, per row, issues an `INSERT`
(newly checked into the portal), a pair of `DELETE`s on `app_access` and
`portal_apps` (checked out of the portal), or an `UPDATE` (still in the
portal with changed details).  Each row's SQL is applied to the table
state in row order. -/

/-- One row of the admin editor frame (`combined_df`/`edited_df`),
reduced to the columns `save_application_changes` reads. -/
structure AppEditRow where
  app_name : String
  app_title : String
  description : String
  url_id : String
  database_name : String
  schema_name : String
  in_portal : Bool
  active : Bool
deriving DecidableEq, Repr

/-- Effect on the table state of processing one editor row against its
original: the three branches of the loop body of
`save_application_changes` (`app_id` is set to `app_name` on insert, and
both `DELETE`s use `app_id = app_name`). -/
def saveRowStep (st : PortalState) (original_row row : AppEditRow) : PortalState :=
  let app_name := row.app_name
  if row.in_portal && !original_row.in_portal then
    { st with portal_apps := st.portal_apps ++
        [{ app_id := app_name, app_name := app_name, app_title := row.app_title,
           description := row.description, url_id := row.url_id,
           database_name := row.database_name, schema_name := row.schema_name,
           is_active := row.active }] }
  else if !row.in_portal && original_row.in_portal then
    { st with
      app_access := st.app_access.filter (fun r => !(r.app_id == app_name)),
      portal_apps := st.portal_apps.filter (fun r => !(r.app_id == app_name)) }
  else if row.in_portal && original_row.in_portal &&
      (row.app_title != original_row.app_title ||
       row.description != original_row.description ||
       row.active != original_row.active) then
    { st with portal_apps := st.portal_apps.map (fun r =>
        if r.app_id == app_name then
          { r with app_title := row.app_title, description := row.description,
                   is_active := row.active }
        else r) }
  else st

/-- `save_application_changes`: process every editor row, in order,
against the original frame. -/
def save_application_changes (st : PortalState)
    (original edited : List AppEditRow) : PortalState :=
  (original.zip edited).foldl (fun s p => saveRowStep s p.1 p.2) st

/-- No branch of the row loop ever inserts an `app_access` row: the
resulting access table is a sublist of the previous one. -/
theorem saveRowStep_access_subset (st : PortalState) (o e : AppEditRow) :
    ∀ r ∈ (saveRowStep st o e).app_access, r ∈ st.app_access := by
  intro r hr
  unfold saveRowStep at hr
  split at hr
  · exact hr
  · split at hr
    · exact (List.mem_filter.mp hr).1
    · split at hr
      · exact hr
      · exact hr

/-- Processing a row that leaves the portal deletes every `app_access`
row of that `app_id`. -/
theorem saveRowStep_removal (st : PortalState) (o e : AppEditRow)
    (ho : o.in_portal = true) (he : e.in_portal = false) :
    ∀ r ∈ (saveRowStep st o e).app_access, ¬(r.app_id = e.app_name) := by
  intro r hr
  simp [saveRowStep, ho, he, List.mem_filter] at hr
  exact hr.2

/-- Once no `app_access` row of a given `app_id` remains, processing any
further editor rows cannot bring one back. -/
theorem save_fold_preserves_absence (name : String) :
    ∀ (l : List (AppEditRow × AppEditRow)) (st : PortalState),
      (∀ r ∈ st.app_access, ¬(r.app_id = name)) →
      ∀ r ∈ (l.foldl (fun s p => saveRowStep s p.1 p.2) st).app_access,
        ¬(r.app_id = name) := by
  intro l
  induction l with
  | nil => intro st h; simpa using h
  | cons p ps ih =>
    intro st h
    simp only [List.foldl_cons]
    exact ih (saveRowStep st p.1 p.2)
      (fun r hr => h r (saveRowStep_access_subset st p.1 p.2 r hr))

theorem save_cascade_aux :
    ∀ (i : Nat) (original edited : List AppEditRow) (st : PortalState)
      (hio : i < original.length) (hie : i < edited.length),
      (original.get ⟨i, hio⟩).in_portal = true →
      (edited.get ⟨i, hie⟩).in_portal = false →
      ∀ r ∈ (save_application_changes st original edited).app_access,
        ¬(r.app_id = (edited.get ⟨i, hie⟩).app_name) := by
  intro i
  induction i with
  | zero =>
    intro original edited st hio hie horig hedit
    cases original with
    | nil => simp at hio
    | cons o os =>
      cases edited with
      | nil => simp at hie
      | cons e es =>
        simp only [save_application_changes, List.zip_cons_cons, List.foldl_cons]
        exact save_fold_preserves_absence _ _ _ (saveRowStep_removal st o e horig hedit)
  | succ n ih =>
    intro original edited st hio hie horig hedit
    cases original with
    | nil => simp at hio
    | cons o os =>
      cases edited with
      | nil => simp at hie
      | cons e es =>
        simp only [save_application_changes, List.zip_cons_cons, List.foldl_cons]
        exact ih os es (saveRowStep st o e)
          (Nat.lt_of_succ_lt_succ (by simpa using hio))
          (Nat.lt_of_succ_lt_succ (by simpa using hie))
          horig hedit

/-- C3: when an admin save removes an application from the portal (its
`in_portal` flag was true in the original frame and false in the edited
one), the `DELETE` on `app_access` cascades: after the save no
`app_access` row referencing the removed `app_id` remains, whatever the
prior state and whatever the other rows do. -/
theorem removed_app_cascades_access_deletion
    (st : PortalState) (original edited : List AppEditRow) (i : Nat)
    (hio : i < original.length) (hie : i < edited.length)
    (horig : (original.get ⟨i, hio⟩).in_portal = true)
    (hedit : (edited.get ⟨i, hie⟩).in_portal = false) :
    ((save_application_changes st original edited).app_access.all
      (fun r => !(r.app_id == (edited.get ⟨i, hie⟩).app_name))) = true := by
  rw [List.all_eq_true]
  intro r hr
  have := save_cascade_aux i original edited st hio hie horig hedit r hr
  simpa using this

/-- Concrete instance of `removed_app_cascades_access_deletion`: a state
holding one access grant for `APP1`, whose editor row flips `in_portal`
from true to false. -/
theorem removed_app_cascades_access_deletion_witness :
    ((save_application_changes
        { portal_apps :=
            [{ app_id := "APP1", app_name := "APP1", app_title := "App One",
               description := "", url_id := "U", database_name := "DB",
               schema_name := "SC", is_active := true }]
          app_access :=
            [{ access_id := 1, app_id := "APP1", access_type := "USER",
               access_value := "ALICE" }]
          nextAccessId := 2 }
        [{ app_name := "APP1", app_title := "App One", description := "",
           url_id := "U", database_name := "DB", schema_name := "SC",
           in_portal := true, active := true }]
        [{ app_name := "APP1", app_title := "App One", description := "",
           url_id := "U", database_name := "DB", schema_name := "SC",
           in_portal := false, active := true }]).app_access.all
      (fun r => !(r.app_id ==
        (([{ app_name := "APP1", app_title := "App One", description := "",
             url_id := "U", database_name := "DB", schema_name := "SC",
             in_portal := false, active := true }] : List AppEditRow).get
          ⟨0, by decide⟩).app_name))) = true :=
  removed_app_cascades_access_deletion
    { portal_apps :=
        [{ app_id := "APP1", app_name := "APP1", app_title := "App One",
           description := "", url_id := "U", database_name := "DB",
           schema_name := "SC", is_active := true }]
      app_access :=
        [{ access_id := 1, app_id := "APP1", access_type := "USER",
           access_value := "ALICE" }]
      nextAccessId := 2 }
    [{ app_name := "APP1", app_title := "App One", description := "",
       url_id := "U", database_name := "DB", schema_name := "SC",
       in_portal := true, active := true }]
    [{ app_name := "APP1", app_title := "App One", description := "",
       url_id := "U", database_name := "DB", schema_name := "SC",
       in_portal := false, active := true }]
    0 (by decide) (by decide) rfl rfl

/-! ## `generate_bulk_dmf_sql` (db-snowdq/streamlit_app.py 2995-3047)

The function builds `sql_lines`, a Python list of lines, and returns
them joined with newlines; the embedding keeps the list
(`generate_bulk_dmf_sql_lines`) and the joined text
(`generate_bulk_dmf_sql`).  A "statement" is what
`execute_bulk_dmf_configuration` later executes: a line that is
non-empty and does not start with `--` (the generator emits no
surrounding whitespace, so the Python `strip()` is the identity on its
lines).  `datetime.now()` enters as the explicit `generated_at`
argument.  `schedule_config` is read at its two keys and `table_configs`
is an association list in dict order; each per-table `config` dict is
read at `table_dmfs` (its `ROW_COUNT`/`FRESHNESS` truthiness),
`freshness_column` and `column_dmfs`. -/

/-- `get_fully_qualified_name` (db-snowdq/streamlit_app.py 706-708). -/
def get_fully_qualified_name (database schema table : String) : String :=
  quote_identifier database ++ "." ++ quote_identifier schema ++ "." ++ quote_identifier table

/-- The two keys of `schedule_config` that the generator reads. -/
structure ScheduleConfig where
  schedule_expression : String
  description : String
deriving DecidableEq, Repr

/-- The keys of one per-table DMF `config` dict that the generator
reads. -/
structure TableDmfConfig where
  row_count : Bool
  freshness : Bool
  freshness_column : Option String
  column_dmfs : List (String × List String)
deriving DecidableEq, Repr

/-- Truthiness of a per-table config: at least one metric selected. -/
def TableDmfConfig.hasAnyDmf (c : TableDmfConfig) : Bool :=
  c.row_count || c.freshness || !c.column_dmfs.isEmpty

/-- The `ALTER TABLE ... SET DATA_METRIC_SCHEDULE` line emitted per
table. -/
def scheduleStmt (full_table_name expr : String) : String :=
  "ALTER TABLE " ++ full_table_name ++ " SET DATA_METRIC_SCHEDULE = '" ++ expr ++ "';"

/-- The `ALTER TABLE ... ADD DATA METRIC FUNCTION` line emitted per
selected metric. -/
def addDmfStmt (full_table_name dmf args : String) : String :=
  "ALTER TABLE " ++ full_table_name ++ " ADD DATA METRIC FUNCTION SNOWFLAKE.CORE."
    ++ dmf ++ " ON (" ++ args ++ ");"

/-- The `ADD DATA METRIC FUNCTION` statements emitted for one table, in
source order: the table-level `ROW_COUNT`, the table-level `FRESHNESS`
(only with a `freshness_column`), then the column-level metrics. -/
def tableAddStmts (full_table_name : String) (config : TableDmfConfig) : List String :=
  (if config.row_count then [addDmfStmt full_table_name "ROW_COUNT" ""] else []) ++
  (match config.freshness, config.freshness_column with
   | true, some col => [addDmfStmt full_table_name "FRESHNESS" (quote_identifier col)]
   | _, _ => []) ++
  ((config.column_dmfs.map (fun p =>
      p.2.map (fun dmf_key => addDmfStmt full_table_name dmf_key (quote_identifier p.1)))).flatten)

/-- The lines emitted for one table by the loop body of
`generate_bulk_dmf_sql`. -/
def tableDmfLines (database schema : String) (schedule : ScheduleConfig)
    (table_name : String) (config : TableDmfConfig) : List String :=
  let full_table_name := get_fully_qualified_name database schema table_name
  ["-- ========================================",
   "-- Configuration for " ++ table_name,
   "-- ========================================",
   "",
   "-- Step 1: Set monitoring schedule",
   scheduleStmt full_table_name schedule.schedule_expression,
   "",
   "-- Step 2: Add Data Metric Functions"] ++
  (if config.row_count then [addDmfStmt full_table_name "ROW_COUNT" ""] else []) ++
  (match config.freshness, config.freshness_column with
   | true, some col => [addDmfStmt full_table_name "FRESHNESS" (quote_identifier col)]
   | _, _ => []) ++
  (if config.column_dmfs.isEmpty then []
   else ["", "-- Column-level DMFs"] ++
     ((config.column_dmfs.map (fun p =>
        p.2.map (fun dmf_key => addDmfStmt full_table_name dmf_key (quote_identifier p.1)))).flatten)) ++
  ["", ""]

/-- The full `sql_lines` list of `generate_bulk_dmf_sql`. -/
def generate_bulk_dmf_sql_lines (database schema : String) (schedule : ScheduleConfig)
    (table_configs : List (String × TableDmfConfig)) (generated_at : String) : List String :=
  ["-- Bulk DMF Configuration for " ++ toString table_configs.length ++ " table(s)",
   "-- Database: " ++ database,
   "-- Schema: " ++ schema,
   "-- Schedule: " ++ schedule.description,
   "-- Generated: " ++ generated_at,
   ""] ++
  (table_configs.map (fun p => tableDmfLines database schema schedule p.1 p.2)).flatten ++
  ["-- View results with:",
   "-- SELECT * FROM SNOWFLAKE.LOCAL.DATA_QUALITY_MONITORING_RESULTS",
   "-- ORDER BY MEASUREMENT_TIME DESC;"]

/-- The SQL text returned by `generate_bulk_dmf_sql`:
`"\n".join(sql_lines)`. -/
def generate_bulk_dmf_sql (database schema : String) (schedule : ScheduleConfig)
    (table_configs : List (String × TableDmfConfig)) (generated_at : String) : String :=
  String.intercalate "\n" (generate_bulk_dmf_sql_lines database schema schedule table_configs generated_at)

/-- The filter `execute_bulk_dmf_configuration` applies to a line: keep
it when it is non-empty and is not a `--` comment. -/
def isStmtLine (l : String) : Bool :=
  if l = "" then false else !(("--".toList).isPrefixOf l.toList)

/-- The executable statements among a list of lines. -/
def sqlStatements (lines : List String) : List String := lines.filter isStmtLine

theorem append_ne_empty_left (pre rest : String) (h : pre ≠ "") : pre ++ rest ≠ "" := by
  intro hc
  apply h
  have hd := congrArg String.data hc
  rw [String.data_append] at hd
  have h0 : pre.data = [] := (List.append_eq_nil.mp hd).1
  apply String.ext
  rw [h0]

/-- A line beginning with the literal `ALTER TABLE ` is kept by the
statement filter. -/
theorem alter_isStmtLine (rest : String) : isStmtLine ("ALTER TABLE " ++ rest) = true := by
  unfold isStmtLine
  rw [if_neg (append_ne_empty_left "ALTER TABLE " rest (by decide))]
  have hd : ("ALTER TABLE " ++ rest).toList = 'A' :: ("LTER TABLE ".toList ++ rest.toList) := by
    simp [String.toList, String.data_append]
  rw [hd]
  rfl

/-- A line beginning with a `--` comment literal is dropped by the
statement filter, whatever follows the literal. -/
theorem comment_append_isStmtLine (pre rest : String) (hpre : pre ≠ "")
    (h : ("--".toList).isPrefixOf pre.toList = true) :
    isStmtLine (pre ++ rest) = false := by
  unfold isStmtLine
  rw [if_neg (append_ne_empty_left pre rest hpre)]
  have hp : ("--".toList) <+: (pre ++ rest).toList := by
    have h1 : ("--".toList) <+: pre.toList := List.isPrefixOf_iff_prefix.mp h
    have h2 : pre.toList <+: (pre ++ rest).toList := by
      simp [String.toList, String.data_append]
    exact h1.trans h2
  rw [List.isPrefixOf_iff_prefix.mpr hp]
  rfl

theorem scheduleStmt_isStmtLine (f e : String) : isStmtLine (scheduleStmt f e) = true := by
  unfold scheduleStmt
  exact alter_isStmtLine _

theorem addDmfStmt_isStmtLine (f d a : String) : isStmtLine (addDmfStmt f d a) = true := by
  unfold addDmfStmt
  exact alter_isStmtLine _

/-- The executable statements of one table's block are the schedule
statement followed by that table's `ADD DATA METRIC FUNCTION`
statements: the comments and blank lines fall away, and the schedule
line is the first statement of the block. -/
theorem tableDmfLines_statements (database schema : String) (schedule : ScheduleConfig)
    (table_name : String) (config : TableDmfConfig) :
    sqlStatements (tableDmfLines database schema schedule table_name config) =
      scheduleStmt (get_fully_qualified_name database schema table_name)
          schedule.schedule_expression
        :: tableAddStmts (get_fully_qualified_name database schema table_name) config := by
  have hc2 : isStmtLine ("-- Configuration for " ++ table_name) = false :=
    comment_append_isStmtLine _ _ (by decide) (by decide)
  have hflat : ∀ x ∈ ((config.column_dmfs.map (fun p =>
      p.2.map (fun dmf_key => addDmfStmt (get_fully_qualified_name database schema table_name)
        dmf_key (quote_identifier p.1)))).flatten),
      isStmtLine x = true := by
    intro x hx
    rw [List.mem_flatten] at hx
    obtain ⟨l, hl, hxl⟩ := hx
    rw [List.mem_map] at hl
    obtain ⟨p, hp, rfl⟩ := hl
    rw [List.mem_map] at hxl
    obtain ⟨k, hk, rfl⟩ := hxl
    exact addDmfStmt_isStmtLine _ _ _
  have hffilter : ((config.column_dmfs.map (fun p =>
      p.2.map (fun dmf_key => addDmfStmt (get_fully_qualified_name database schema table_name)
        dmf_key (quote_identifier p.1)))).flatten).filter isStmtLine =
      ((config.column_dmfs.map (fun p =>
      p.2.map (fun dmf_key => addDmfStmt (get_fully_qualified_name database schema table_name)
        dmf_key (quote_identifier p.1)))).flatten) :=
    List.filter_eq_self.mpr hflat
  have hcol : ((if config.column_dmfs.isEmpty then ([] : List String)
      else ["", "-- Column-level DMFs"] ++
        ((config.column_dmfs.map (fun p =>
          p.2.map (fun dmf_key => addDmfStmt (get_fully_qualified_name database schema table_name)
            dmf_key (quote_identifier p.1)))).flatten)).filter isStmtLine) =
      ((config.column_dmfs.map (fun p =>
        p.2.map (fun dmf_key => addDmfStmt (get_fully_qualified_name database schema table_name)
          dmf_key (quote_identifier p.1)))).flatten) := by
    cases h : config.column_dmfs.isEmpty with
    | true =>
      have hnil : config.column_dmfs = [] := List.isEmpty_iff.mp h
      simp [hnil]
    | false =>
      simp only [Bool.false_eq_true, if_false, List.filter_append]
      rw [hffilter]
      simp [isStmtLine]
  have hblank : isStmtLine "" = false := by decide
  have hcm1 : isStmtLine "-- ========================================" = false := by decide
  have hcm5 : isStmtLine "-- Step 1: Set monitoring schedule" = false := by decide
  have hcm8 : isStmtLine "-- Step 2: Add Data Metric Functions" = false := by decide
  cases hrc : config.row_count <;> cases hfr : config.freshness <;>
    cases hfc : config.freshness_column <;>
    · simp only [tableDmfLines, tableAddStmts, sqlStatements, hrc, hfr, hfc,
        List.filter_append, List.filter_cons, List.filter_nil, hc2,
        hblank, hcm1, hcm5, hcm8,
        scheduleStmt_isStmtLine, addDmfStmt_isStmtLine, hcol]
      simp [List.filter_cons, List.filter_nil, addDmfStmt_isStmtLine,
        scheduleStmt_isStmtLine, hblank, hcm1, hcm5, hcm8, hcol]

/-- A `--` comment marker at the head of a string survives appending
more text. -/
theorem comment_prefix_append (pre rest : String)
    (h : ("--".toList).isPrefixOf pre.toList = true) :
    ("--".toList).isPrefixOf (pre ++ rest).toList = true := by
  rw [List.isPrefixOf_iff_prefix] at h ⊢
  exact h.trans (by simp [String.toList, String.data_append])

/-- Every statement in `tableAddStmts` is an
`ALTER TABLE ... ADD DATA METRIC FUNCTION` statement for that table. -/
theorem tableAddStmts_shape (f : String) (config : TableDmfConfig) :
    ∀ l ∈ tableAddStmts f config, ∃ dmf args, l = addDmfStmt f dmf args := by
  intro l hl
  unfold tableAddStmts at hl
  rw [List.mem_append, List.mem_append] at hl
  rcases hl with (hl | hl) | hl
  · cases hrc : config.row_count with
    | false => rw [hrc] at hl; simp at hl
    | true =>
      rw [hrc] at hl
      simp at hl
      exact ⟨"ROW_COUNT", "", hl⟩
  · cases hfr : config.freshness with
    | false => rw [hfr] at hl; simp at hl
    | true =>
      cases hfc : config.freshness_column with
      | none => rw [hfr, hfc] at hl; simp at hl
      | some col =>
        rw [hfr, hfc] at hl
        simp at hl
        exact ⟨"FRESHNESS", quote_identifier col, hl⟩
  · rw [List.mem_flatten] at hl
    obtain ⟨m, hm, hlm⟩ := hl
    rw [List.mem_map] at hm
    obtain ⟨p, hp, rfl⟩ := hm
    rw [List.mem_map] at hlm
    obtain ⟨k, hk, rfl⟩ := hlm
    exact ⟨k, quote_identifier p.1, rfl⟩

/-- An `ADD DATA METRIC FUNCTION` statement is never the
`SET DATA_METRIC_SCHEDULE` statement of the same table: past the common
`ALTER TABLE <name>` prefix the two texts diverge immediately. -/
theorem addDmfStmt_ne_scheduleStmt (f dmf args expr : String) :
    addDmfStmt f dmf args ≠ scheduleStmt f expr := by
  intro h
  have hd := congrArg String.data h
  simp [addDmfStmt, scheduleStmt, String.data_append, List.append_assoc] at hd

/-- Every executable statement in the generated bulk-DMF SQL is one of
the two `ALTER TABLE` forms. -/
theorem generate_bulk_statements_shape (database schema : String) (schedule : ScheduleConfig)
    (table_configs : List (String × TableDmfConfig)) (generated_at : String) :
    ∀ l ∈ sqlStatements
        (generate_bulk_dmf_sql_lines database schema schedule table_configs generated_at),
      (∃ ftn, l = scheduleStmt ftn schedule.schedule_expression) ∨
      (∃ ftn dmf args, l = addDmfStmt ftn dmf args) := by
  intro l hl
  unfold generate_bulk_dmf_sql_lines sqlStatements at hl
  rw [List.filter_append, List.filter_append, List.mem_append, List.mem_append] at hl
  have hh1 : isStmtLine ("-- Bulk DMF Configuration for "
      ++ toString table_configs.length ++ " table(s)") = false :=
    comment_append_isStmtLine _ _
      (append_ne_empty_left _ _ (by decide))
      (comment_prefix_append _ _ (by decide))
  have hh2 : isStmtLine ("-- Database: " ++ database) = false :=
    comment_append_isStmtLine _ _ (by decide) (by decide)
  have hh3 : isStmtLine ("-- Schema: " ++ schema) = false :=
    comment_append_isStmtLine _ _ (by decide) (by decide)
  have hh4 : isStmtLine ("-- Schedule: " ++ schedule.description) = false :=
    comment_append_isStmtLine _ _ (by decide) (by decide)
  have hh5 : isStmtLine ("-- Generated: " ++ generated_at) = false :=
    comment_append_isStmtLine _ _ (by decide) (by decide)
  have hblank : isStmtLine "" = false := by decide
  rcases hl with (hl | hl) | hl
  · exfalso
    rw [List.mem_filter] at hl
    obtain ⟨hcase, hstmt⟩ := hl
    simp only [List.mem_cons, List.not_mem_nil, or_false] at hcase
    rcases hcase with rfl | rfl | rfl | rfl | rfl | rfl <;>
      simp [hh1, hh2, hh3, hh4, hh5, hblank] at hstmt
  · rw [List.filter_flatten, List.map_map, List.mem_flatten] at hl
    obtain ⟨m, hm, hlm⟩ := hl
    rw [List.mem_map] at hm
    obtain ⟨p, hp, rfl⟩ := hm
    have hstmts := tableDmfLines_statements database schema schedule p.1 p.2
    rw [show (List.filter isStmtLine ∘ fun p => tableDmfLines database schema schedule p.1 p.2) p
        = sqlStatements (tableDmfLines database schema schedule p.1 p.2) from rfl,
      hstmts] at hlm
    rcases List.mem_cons.mp hlm with hsched | hadd
    · exact Or.inl ⟨get_fully_qualified_name database schema p.1, hsched⟩
    · obtain ⟨dmf, args, rfl⟩ :=
        tableAddStmts_shape (get_fully_qualified_name database schema p.1) p.2 l hadd
      exact Or.inr ⟨get_fully_qualified_name database schema p.1, dmf, args, rfl⟩
  · exfalso
    have ht1 : isStmtLine "-- View results with:" = false := by decide
    have ht2 : isStmtLine "-- SELECT * FROM SNOWFLAKE.LOCAL.DATA_QUALITY_MONITORING_RESULTS"
        = false := by decide
    have ht3 : isStmtLine "-- ORDER BY MEASUREMENT_TIME DESC;" = false := by decide
    rw [List.mem_filter] at hl
    obtain ⟨hcase, hstmt⟩ := hl
    simp only [List.mem_cons, List.not_mem_nil, or_false] at hcase
    rcases hcase with rfl | rfl | rfl <;> simp [ht1, ht2, ht3] at hstmt

/-- C4: for every schedule configuration and per-table DMF
configuration, each configured table's block contains exactly one
`ALTER TABLE ... SET DATA_METRIC_SCHEDULE` statement — it is the first
statement of the block, so it precedes every
`ALTER TABLE ... ADD DATA METRIC FUNCTION` statement of that table, and
no other statement of the block is a schedule statement — and every
non-comment statement of the whole generated SQL is one of the two
`ALTER TABLE` forms. -/
theorem bulk_dmf_schedule_once_first (database schema : String) (schedule : ScheduleConfig)
    (table_configs : List (String × TableDmfConfig)) (generated_at : String) :
    (∀ p ∈ table_configs,
      sqlStatements (tableDmfLines database schema schedule p.1 p.2) =
        scheduleStmt (get_fully_qualified_name database schema p.1)
            schedule.schedule_expression
          :: tableAddStmts (get_fully_qualified_name database schema p.1) p.2 ∧
      ∀ l ∈ tableAddStmts (get_fully_qualified_name database schema p.1) p.2,
        (∃ dmf args, l = addDmfStmt (get_fully_qualified_name database schema p.1) dmf args) ∧
        l ≠ scheduleStmt (get_fully_qualified_name database schema p.1)
              schedule.schedule_expression) ∧
    (∀ l ∈ sqlStatements
        (generate_bulk_dmf_sql_lines database schema schedule table_configs generated_at),
      (∃ ftn, l = scheduleStmt ftn schedule.schedule_expression) ∨
      (∃ ftn dmf args, l = addDmfStmt ftn dmf args)) := by
  constructor
  · intro p _hp
    refine ⟨tableDmfLines_statements database schema schedule p.1 p.2, ?_⟩
    intro l hl
    obtain ⟨dmf, args, rfl⟩ :=
      tableAddStmts_shape (get_fully_qualified_name database schema p.1) p.2 l hl
    exact ⟨⟨dmf, args, rfl⟩, addDmfStmt_ne_scheduleStmt _ _ _ _⟩
  · exact generate_bulk_statements_shape database schema schedule table_configs generated_at

/-- Concrete instance of `bulk_dmf_schedule_once_first`: one table with
a `ROW_COUNT` metric and one column metric; its statement list is the
schedule statement followed by the two `ADD` statements. -/
theorem bulk_dmf_schedule_once_first_witness :
    sqlStatements (tableDmfLines "DQ" "PUBLIC"
        { schedule_expression := "5 MINUTE", description := "Every 5 minutes" }
        "ORDERS"
        { row_count := true, freshness := false, freshness_column := none,
          column_dmfs := [("ID", ["NULL_COUNT"])] }) =
      scheduleStmt (get_fully_qualified_name "DQ" "PUBLIC" "ORDERS") "5 MINUTE"
        :: tableAddStmts (get_fully_qualified_name "DQ" "PUBLIC" "ORDERS")
            { row_count := true, freshness := false, freshness_column := none,
              column_dmfs := [("ID", ["NULL_COUNT"])] } :=
  ((bulk_dmf_schedule_once_first "DQ" "PUBLIC"
      { schedule_expression := "5 MINUTE", description := "Every 5 minutes" }
      [("ORDERS",
        { row_count := true, freshness := false, freshness_column := none,
          column_dmfs := [("ID", ["NULL_COUNT"])] })]
      "2025-01-01 00:00:00").1
    ("ORDERS",
      { row_count := true, freshness := false, freshness_column := none,
        column_dmfs := [("ID", ["NULL_COUNT"])] })
    (List.mem_singleton.mpr rfl)).1

/-! ## DMF apply path: `setup_database_objects` (db-snowdq/streamlit_app.py
1148-1226), `log_dmf_history` (855-907), `execute_bulk_dmf_configuration`
and `log_dmf_execution` (3049-3161)

`setup_database_objects` hardcodes `DB_SNOWTOOLS.PUBLIC` and creates the
two tracking tables with `CREATE TABLE IF NOT EXISTS`.  Applying a bulk
DMF configuration executes the non-comment lines of the generated SQL
and, for each executed line whose upper-casing contains
`ADD DATA METRIC FUNCTION`, issues the `INSERT` built by
`log_dmf_history`.  Python's `str.split('\n')`, `str.strip()` and the
`in` substring test are transcribed as the structural char-list
functions `splitNl`, `trimChars` and `containsPat`; the regex
extraction of `log_dmf_execution` (table name, DMF type, column) enters
as the abstract `extract` argument. -/

def setup_database_name : String := "DB_SNOWTOOLS"

def setup_schema_name : String := "PUBLIC"

/-- The `DATA_DESCRIPTION_HISTORY` `CREATE TABLE` text of
`setup_database_objects`. -/
def history_table_sql : String :=
  "\n        CREATE TABLE IF NOT EXISTS " ++ setup_database_name ++ "." ++ setup_schema_name
    ++ ".DATA_DESCRIPTION_HISTORY (\n            HISTORY_ID NUMBER AUTOINCREMENT PRIMARY KEY,\n            DATABASE_NAME VARCHAR(255) NOT NULL,\n            SCHEMA_NAME VARCHAR(255) NOT NULL,\n            OBJECT_TYPE VARCHAR(50) NOT NULL,\n            OBJECT_NAME VARCHAR(255) NOT NULL,\n            COLUMN_NAME VARCHAR(255),\n            BEFORE_DESCRIPTION TEXT,\n            AFTER_DESCRIPTION TEXT,\n            SQL_EXECUTED TEXT,\n            UPDATED_BY VARCHAR(255) DEFAULT CURRENT_USER(),\n            UPDATED_AT TIMESTAMP_LTZ DEFAULT CURRENT_TIMESTAMP()\n        )\n        "

/-- The `DATA_QUALITY_RESULTS` `CREATE TABLE` text of
`setup_database_objects`. -/
def quality_table_sql : String :=
  "\n        CREATE TABLE IF NOT EXISTS " ++ setup_database_name ++ "." ++ setup_schema_name
    ++ ".DATA_QUALITY_RESULTS (\n            RESULT_ID NUMBER AUTOINCREMENT PRIMARY KEY,\n            MONITOR_NAME VARCHAR(255) NOT NULL,\n            DATABASE_NAME VARCHAR(255) NOT NULL,\n            SCHEMA_NAME VARCHAR(255) NOT NULL,\n            TABLE_NAME VARCHAR(255) NOT NULL,\n            COLUMN_NAME VARCHAR(255),\n            METRIC_VALUE NUMBER,\n            METRIC_UNIT VARCHAR(50),\n            THRESHOLD_MIN NUMBER,\n            THRESHOLD_MAX NUMBER,\n            STATUS VARCHAR(20),\n            MEASUREMENT_TIME TIMESTAMP_LTZ,\n            RECORD_INSERTED_AT TIMESTAMP_LTZ DEFAULT CURRENT_TIMESTAMP(),\n            SQL_EXECUTED TEXT\n        )\n        "

/-- Python truthiness of an optional string: `None` and `''` are falsy. -/
def pyTruthy : Option String → Bool
  | none => false
  | some s => !(s = "")

/-- The `INSERT` text built by `log_dmf_history`: the derived
`object_type` and change `description`, inserted into
`DB_SNOWTOOLS.PUBLIC.DATA_DESCRIPTION_HISTORY`. -/
def log_dmf_history_sql (database schema table_name dmf_type : String)
    (column_name : Option String) (action updated_by : String) : String :=
  let object_type := "DMF_" ++ dmf_type ++ (if pyTruthy column_name then "_COLUMN" else "")
  let description :=
    if action = "ADDED" then
      "Added " ++ dmf_type ++ " data quality metric" ++
        (if pyTruthy column_name then " to column " ++ column_name.getD "" else "")
    else
      action ++ " " ++ dmf_type ++ " data quality metric" ++
        (if pyTruthy column_name then " on column " ++ column_name.getD "" else "")
  "\n        INSERT INTO DB_SNOWTOOLS.PUBLIC.DATA_DESCRIPTION_HISTORY (" ++
    "\n            DATABASE_NAME,\n            SCHEMA_NAME,\n            OBJECT_NAME,\n            COLUMN_NAME,\n            OBJECT_TYPE,\n            BEFORE_DESCRIPTION,\n            AFTER_DESCRIPTION,\n            UPDATED_BY\n        ) VALUES (\n            '" ++
    database ++ "',\n            '" ++ schema ++ "',\n            '" ++ table_name
    ++ "',\n            " ++
    (if pyTruthy column_name then "'" ++ column_name.getD "" ++ "'" else "NULL") ++
    ",\n            '" ++ object_type ++ "',\n            NULL,\n            '" ++ description
    ++ "',\n            '" ++ updated_by ++ "'\n        )\n        "

/-- `str.split('\n')` over the character list. -/
def splitNl : List Char → List (List Char)
  | [] => [[]]
  | c :: rest =>
    match splitNl rest with
    | [] => if c = '\n' then [[], []] else [[c]]
    | h :: t => if c = '\n' then [] :: h :: t else (c :: h) :: t

/-- The whitespace characters `str.strip()` removes that can occur in
the generated SQL. -/
def isWsp (c : Char) : Bool := c = ' ' || c = '\t' || c = '\n' || c = '\r'

/-- `str.strip()` over the character list. -/
def trimChars (cs : List Char) : List Char :=
  ((cs.dropWhile isWsp).reverse.dropWhile isWsp).reverse

/-- Python's `pat in s` substring test over character lists. -/
def containsPat (pat : List Char) : List Char → Bool
  | [] => pat.isEmpty
  | c :: rest => pat.isPrefixOf (c :: rest) || containsPat pat rest

/-- `'ADD DATA METRIC FUNCTION' in sql_line.upper()`. -/
def hasAddDmfMarker (sql_line : String) : Bool :=
  containsPat ("ADD DATA METRIC FUNCTION".toList) (sql_line.toList.map Char.toUpper)

/-- The command lines `execute_bulk_dmf_configuration` executes:
each line of `sql_commands`, stripped, kept when non-empty and not a
`--` comment. -/
def parsedStmtLines (sql_commands : String) : List String :=
  ((splitNl sql_commands.toList).map (fun cs => String.mk (trimChars cs))).filter isStmtLine

/-- Every SQL statement the bulk-apply action sends to the warehouse:
each executed command line, followed — when the line carries the
`ADD DATA METRIC FUNCTION` marker — by the history `INSERT` built by
`log_dmf_history` from the extracted table, DMF type and column. -/
def bulk_dmf_issued_sql (database schema : String)
    (extract : String → String × String × Option String) (sql_commands : String) : List String :=
  ((parsedStmtLines sql_commands).map (fun sql_line =>
    sql_line ::
      (if hasAddDmfMarker sql_line then
        [log_dmf_history_sql database schema (extract sql_line).1 (extract sql_line).2.1
          (extract sql_line).2.2 "ADDED" "Streamlit App"]
       else []))).flatten

/-- The bulk-apply SQL of a one-table `ROW_COUNT` configuration. -/
def bulkApplyExampleSql : String :=
  generate_bulk_dmf_sql "DQ" "PUBLIC"
    { schedule_expression := "5 MINUTE", description := "Every 5 minutes" }
    [("ORDERS", { row_count := true, freshness := false, freshness_column := none,
                  column_dmfs := [] })]
    "2025-01-01 00:00:00"

/-- The regex extraction of `log_dmf_execution` evaluated on the example
apply: table `ORDERS`, DMF `ROW_COUNT`, no column (the `ON ()` argument
list does not match the column pattern). -/
def exampleExtract : String → String × String × Option String :=
  fun _ => ("ORDERS", "ROW_COUNT", none)

theorem isPrefixOf_append_chars (p a b : List Char) (h : p.isPrefixOf a = true) :
    p.isPrefixOf (a ++ b) = true := by
  rw [List.isPrefixOf_iff_prefix] at h ⊢
  exact h.trans (List.prefix_append a b)

set_option maxRecDepth 100000

/-- C2 counterexample: on the concrete one-table `ROW_COUNT` apply, no
statement the program issues mentions `DATA_QUALITY_RESULTS` at all — in
particular none inserts into it — while an `INSERT INTO
DB_SNOWTOOLS.PUBLIC.DATA_QUALITY_RESULTS`-style quality record is never
produced; the single `INSERT` issued targets
`DB_SNOWTOOLS.PUBLIC.DATA_DESCRIPTION_HISTORY`. -/
theorem dmf_apply_no_quality_results_insert_cex :
    ((bulk_dmf_issued_sql "DQ" "PUBLIC" exampleExtract bulkApplyExampleSql).all
      (fun stmt => !(containsPat ("DATA_QUALITY_RESULTS".toList) stmt.toList))) = true ∧
    ((bulk_dmf_issued_sql "DQ" "PUBLIC" exampleExtract bulkApplyExampleSql).any
      (fun stmt => containsPat
        ("INSERT INTO DB_SNOWTOOLS.PUBLIC.DATA_DESCRIPTION_HISTORY".toList) stmt.toList)) = true ∧
    containsPat ("DATA_QUALITY_RESULTS".toList) bulkApplyExampleSql.toList = false := by
  refine ⟨by decide, by decide, by decide⟩

/-- C2 (amended): after a user-triggered DMF apply, for every executed
command carrying the `ADD DATA METRIC FUNCTION` marker the program
issues the `log_dmf_history` `INSERT`; every statement the apply issues
is either an executed command line or such an insert; every such insert
opens with `INSERT INTO DB_SNOWTOOLS.PUBLIC.DATA_DESCRIPTION_HISTORY (`;
and the `DATA_QUALITY_RESULTS` table is only ever created by setup
(`CREATE TABLE IF NOT EXISTS`), whose text contains no `INSERT INTO`. -/
theorem dmf_apply_logs_to_description_history
    (database schema : String) (extract : String → String × String × Option String)
    (sql_commands : String) :
    (∀ line ∈ parsedStmtLines sql_commands, hasAddDmfMarker line = true →
      log_dmf_history_sql database schema (extract line).1 (extract line).2.1
        (extract line).2.2 "ADDED" "Streamlit App"
        ∈ bulk_dmf_issued_sql database schema extract sql_commands) ∧
    (∀ stmt ∈ bulk_dmf_issued_sql database schema extract sql_commands,
      stmt ∈ parsedStmtLines sql_commands ∨
      ∃ t d c, stmt = log_dmf_history_sql database schema t d c "ADDED" "Streamlit App") ∧
    (∀ t d c,
      (("\n        INSERT INTO DB_SNOWTOOLS.PUBLIC.DATA_DESCRIPTION_HISTORY (").toList).isPrefixOf
        (log_dmf_history_sql database schema t d c "ADDED" "Streamlit App").toList = true) ∧
    containsPat ("CREATE TABLE IF NOT EXISTS DB_SNOWTOOLS.PUBLIC.DATA_QUALITY_RESULTS".toList)
      quality_table_sql.toList = true ∧
    containsPat ("INSERT INTO".toList) quality_table_sql.toList = false ∧
    containsPat ("INSERT INTO".toList) history_table_sql.toList = false := by
  refine ⟨?_, ?_, ?_, by decide, by decide, by decide⟩
  · intro line hline hmark
    unfold bulk_dmf_issued_sql
    rw [List.mem_flatten]
    refine ⟨line ::
      [log_dmf_history_sql database schema (extract line).1 (extract line).2.1
        (extract line).2.2 "ADDED" "Streamlit App"], ?_, ?_⟩
    · rw [List.mem_map]
      exact ⟨line, hline, by rw [if_pos hmark]⟩
    · simp
  · intro stmt hstmt
    unfold bulk_dmf_issued_sql at hstmt
    rw [List.mem_flatten] at hstmt
    obtain ⟨m, hm, hsm⟩ := hstmt
    rw [List.mem_map] at hm
    obtain ⟨line, hline, rfl⟩ := hm
    rcases List.mem_cons.mp hsm with rfl | htail
    · exact Or.inl hline
    · by_cases hmark : hasAddDmfMarker line = true
      · rw [if_pos hmark] at htail
        rw [List.mem_singleton] at htail
        exact Or.inr ⟨(extract line).1, (extract line).2.1, (extract line).2.2, htail⟩
      · rw [if_neg hmark] at htail
        exact absurd htail (List.not_mem_nil _)
  · intro t d c
    rw [List.isPrefixOf_iff_prefix]
    simp only [log_dmf_history_sql, String.toList, String.data_append, List.append_assoc]
    exact List.prefix_append _ _

/-- Concrete instance of `dmf_apply_logs_to_description_history`: on the
example apply, the executed `ADD` command makes the program issue the
history `INSERT` for `ORDERS`/`ROW_COUNT`. -/
theorem dmf_apply_logs_to_description_history_witness :
    log_dmf_history_sql "DQ" "PUBLIC" "ORDERS" "ROW_COUNT" none "ADDED" "Streamlit App"
      ∈ bulk_dmf_issued_sql "DQ" "PUBLIC" exampleExtract bulkApplyExampleSql :=
  (dmf_apply_logs_to_description_history "DQ" "PUBLIC" exampleExtract bulkApplyExampleSql).1
    "ALTER TABLE DQ.PUBLIC.ORDERS ADD DATA METRIC FUNCTION SNOWFLAKE.CORE.ROW_COUNT ON ();"
    (by decide) (by decide)
